import Mathlib

/-!
Verification of the entity-component core of the wrench repository
(crate `wecs`: `World`, `Entity`; component `EventHandler`), shallowly
embedded in Lean. Mutexes and read-write locks guard in-memory structure
only, so the embedding is sequential: a `Mutex<Vec<_>>` becomes a list,
state is passed explicitly, and a call of `Vec::remove` with an index
out of bounds (a Rust panic) is modelled by `Option.none`.
-/

/-- Kind of a reference-counted pointer from `std::sync` as held for the
back-reference of an `Entity` to its `World`: a clone of an `Arc` is
strong (owning, it extends the lifetime of the referent), while a `Weak`
obtained from `Arc::downgrade` is non-owning. -/
inductive RefKind where
  | strongArc
  | weakRef
deriving DecidableEq, Repr

/-- The `Entity` struct of the wecs crate. Its source file is not under
src/; per the spec (section 3) its attributes are an identifier, a
back-reference to the owning `World`, and a mapping from
component-category key to an ordered collection of components, embedded
here as an association list with type-erased component payloads `κ`.
The constructor `Entity::new(id, world, components)` stores the
arguments it is given; the pointer kind recorded in `world` is the kind
of the argument built at the call sites in src/wecs/src/world.rs, where
`Mutex::new(self.clone())` with `self : Arc<World>` is a strong Arc. -/
structure Entity (κ : Type) where
  id : String
  world : RefKind
  components : List (String × List κ)
deriving DecidableEq, Repr

/-- The `World` struct (src/wecs/src/world.rs line 8): a mutex-guarded
vector of `Arc<Entity>`; the mutex is elided in this sequential
embedding and the vector is a list. -/
structure World (κ : Type) where
  entities : List (Entity κ)
deriving DecidableEq, Repr

/-- `World::new` (world.rs lines 13 to 17): a fresh world with an empty
entity vector. -/
def World.new (κ : Type) : World κ :=
  ⟨[]⟩

/-- `World::create` (world.rs lines 19 to 30): constructs
`Entity::new(id, Mutex::new(self.clone()), components)` — the world
back-reference is a clone of `self : Arc<World>`, a strong Arc — then
locks the entity vector, pushes a clone of the new entity, and returns
the entity. The post-state world is returned together with the
entity. -/
def World.create (w : World κ) (id : String) (components : List (String × List κ)) :
    World κ × Entity κ :=
  let entity : Entity κ := ⟨id, RefKind.strongArc, components⟩
  (⟨w.entities ++ [entity]⟩, entity)

/-- `World::create_default` (world.rs lines 32 to 36): constructs
`Entity::new(id, Mutex::new(self.clone()), Mutex::new(HashMap::new()))`
and returns it without touching the entity vector: the world is
unchanged. -/
def World.create_default (w : World κ) (id : String) : World κ × Entity κ :=
  let entity : Entity κ := ⟨id, RefKind.strongArc, []⟩
  (w, entity)

/-- `Vec::remove(i)` of Rust: removes the element at index `i`, shifting
all later elements left; Rust panics when `i` is not below the length,
modelled as `none`. -/
def vecRemove (l : List α) (i : Nat) : Option (List α) :=
  if i < l.length then some (l.eraseIdx i) else none

/-- `World::remove_by_id` (world.rs lines 45 to 56): locks the entity
vector, then iterates over a clone of it with `enumerate`, keeps the
pairs whose entity id equals `id` by string value, and for each kept
pair calls `entities.remove(i)` on the live vector with the index `i`
taken from the clone. The indices are therefore computed against the
pre-call vector while the removals shrink the live one. `none` models a
panic of `Vec::remove`. -/
def World.remove_by_id (w : World κ) (id : String) : Option (World κ) := do
  let matched := (w.entities.enum.filter (fun p => p.2.id == id)).map Prod.fst
  let post ← matched.foldlM vecRemove w.entities
  pure ⟨post⟩

/-- `World::remove` (world.rs lines 38 to 43): delegates to
`remove_by_id` with a clone of the id of the given entity. -/
def World.remove (w : World κ) (e : Entity κ) : Option (World κ) :=
  w.remove_by_id e.id

/-- The constant `EVENT_HANDLER_ID` of
src/src/components/event_handler.rs line 4. -/
def EVENT_HANDLER_ID : String := "event handler"

/-- Modelled from the spec: the identifier generator `ecs::id` of the
wecs crate root is not under src/; per the spec (section 4.1) it
produces a fresh identifier composing the category with a process-unique
suffix. The suffix is irrelevant to every claim here and is elided, so
the embedding keeps only the category. -/
def ecs.id (category : String) : String :=
  category

/-- Modelled from the spec: the helper `ecs::entity` of the wecs crate
root is not under src/; it wraps its argument, an optional entity
reference, into the shared slot `Arc<RwLock<Option<Arc<Entity>>>>` used
for the attached-entity back-reference of a component. The Arc and
RwLock wrappers are elided, keeping the optional value. -/
def ecs.entity (x : Option η) : Option η :=
  x

/-- The `EventHandler` component
(src/src/components/event_handler.rs lines 12 to 18): an identifier, a
category identifier `tid`, a shared slot for the optional attached
entity, and a swappable handler slot `Arc<RwLock<Arc<dyn Handler>>>`.
The entity-reference type `η` and the handler type `H` are parameters
of the embedding. -/
structure EventHandler (η H : Type) where
  id : String
  tid : String
  entity : Option η
  handler : H
deriving DecidableEq, Repr

/-- `EventHandler::new` (event_handler.rs lines 21 to 32): builds the
full component behind an `Arc` — the given id, `tid` from the id
generator at `EVENT_HANDLER_ID`, the attached-entity slot from
`ecs::entity(None)`, and the handler slot a fresh RwLock around a clone
of the given handler Arc — and only then calls
`handler.set_event_handler(Some(event_handler.clone()))` once, passing a
clone of the finished component, before returning the component. The
embedding returns the component together with the trace of arguments of
the `set_event_handler` invocations that the constructor performs. -/
def EventHandler.new {η H : Type} (ident : String) (handler : H) :
    EventHandler η H × List (Option (EventHandler η H)) :=
  let event_handler : EventHandler η H :=
    ⟨ident, ecs.id EVENT_HANDLER_ID, ecs.entity none, handler⟩
  (event_handler, [some event_handler])

/-- One observable action of a method of `EventHandler` in the
embedding: acquiring the read lock on the handler slot (recording the
handler obtained), or invoking the `handle` method of a handler with an
event. -/
inductive HandlerAction (H E : Type) where
  | readLock (got : H)
  | invokeHandle (h : H) (ev : E)
deriving DecidableEq

/-- `EventHandler::handle` (event_handler.rs lines 34 to 36):
`self.handler.read().unwrap().handle(event)` — takes the read lock on
the handler slot and invokes the `handle` method of the handler found
there with the given event. The embedding returns the action trace and
the post-state of the component. -/
def EventHandler.handle {η H E : Type} (c : EventHandler η H) (ev : E) :
    List (HandlerAction H E) × EventHandler η H :=
  ([HandlerAction.readLock c.handler, HandlerAction.invokeHandle c.handler ev], c)

/-- The handler invocations contained in an action trace, in order. -/
def invokesOf (tr : List (HandlerAction H E)) : List (H × E) :=
  tr.filterMap fun a =>
    match a with
    | HandlerAction.invokeHandle h ev => some (h, ev)
    | _ => none

/-- An entity with id "dup" and no components, for concrete runs. -/
def dupA : Entity Unit := ⟨"dup", RefKind.strongArc, []⟩

/-- An entity with id "x" and no components, for concrete runs. -/
def entX : Entity Unit := ⟨"x", RefKind.strongArc, []⟩

/-- A world holding exactly two entities of id "dup". -/
def dupWorld2 : World Unit := ⟨[dupA, dupA]⟩

/-- A world holding two entities of id "dup" followed by one of id "x". -/
def dupWorld3 : World Unit := ⟨[dupA, dupA, entX]⟩

/-- A pair of an index pulled from `List.enum` of a list and an element
is a pair whose element belongs to the list; stated for `enumFrom` so
the induction goes through. -/
theorem snd_mem_of_mem_enumFrom {p : Nat × α} :
    ∀ {n : Nat} {l : List α}, p ∈ l.enumFrom n → p.2 ∈ l := by
  intro n l
  induction l generalizing n with
  | nil => intro h; cases h
  | cons a t ih =>
      intro hmem
      rw [List.enumFrom_cons, List.mem_cons] at hmem
      rcases hmem with hp | hp
      · subst hp
        exact List.mem_cons_self a t
      · exact List.mem_cons_of_mem a (ih hp)

/-- Claim C1 (evidence of the code bug): on a world whose entity list
holds exactly two entities of id "dup", `World::remove_by_id("dup")`
does not shrink the list by 2 as the claim states: the first removal
shrinks the vector, the second stale index 1 is then out of bounds, and
`Vec::remove` panics (`none`). With a third entity "x" after the two,
the call returns normally but the second stale index now names "x",
which is deleted in place of the second "dup": one entity of id "dup"
is left in the list. -/
theorem remove_by_id_two_dups_diverges :
    dupWorld2.remove_by_id "dup" = none ∧
    dupWorld3.remove_by_id "dup" = some ⟨[dupA]⟩ := by
  decide

/-- Claim C4 (evidence of the code bug): `remove_by_id` is not
idempotent. On the world [dup, dup, x], one call yields [dup] while a
second call on that result yields the empty list, so calling twice
differs from calling once. -/
theorem remove_by_id_not_idempotent :
    dupWorld3.remove_by_id "dup" = some ⟨[dupA]⟩ ∧
    (dupWorld3.remove_by_id "dup" >>= fun w => w.remove_by_id "dup") = some ⟨[]⟩ ∧
    (⟨[dupA]⟩ : World Unit) ≠ (⟨[]⟩ : World Unit) := by
  decide

/-- Claim C2 counterexample: the entity returned by `World::create` on a
fresh world holds a strong Arc back-reference to the world, not a weak
one, refuting the claim that a created entity holds no strong
(lifetime-extending) reference to its world. -/
theorem create_backref_strong_cex :
    (((World.new Unit).create "e" []).2).world = RefKind.strongArc ∧
    RefKind.strongArc ≠ RefKind.weakRef := by
  decide

/-- Claim C2 (amended): for every world, id and component map, the
entities built by `World::create` and by `World::create_default` hold a
strong Arc back-reference to the world — a clone of `self : Arc<World>`
— so an entity does keep its world alive by existing and, for entities
stored in the entity list, a World-owns-Entity-owns-World reference
cycle is formed. -/
theorem create_backref_is_strong (κ : Type) (w : World κ) (ident : String)
    (comps : List (String × List κ)) :
    ((w.create ident comps).2).world = RefKind.strongArc ∧
    ((w.create_default ident).2).world = RefKind.strongArc :=
  ⟨rfl, rfl⟩

/-- Claim C3: `World::create_default(id)` returns an entity with an
empty component map and does not append it to the entity list: the
world is unchanged by the call and — with the freshness of the new
allocation modelled as structural absence of such an entity beforehand —
the returned entity is absent from the list of the resulting world. -/
theorem create_default_not_tracked (κ : Type) (w : World κ) (ident : String)
    (hfresh : (⟨ident, RefKind.strongArc, []⟩ : Entity κ) ∉ w.entities) :
    (w.create_default ident).1 = w ∧
    ((w.create_default ident).2).components = [] ∧
    (w.create_default ident).2 ∉ ((w.create_default ident).1).entities :=
  ⟨rfl, rfl, hfresh⟩

/-- Witness for claim C3 at the empty world and id "e". -/
theorem create_default_not_tracked_witness :
    ((World.new Unit).create_default "e").1 = World.new Unit ∧
    (((World.new Unit).create_default "e").2).components = [] ∧
    ((World.new Unit).create_default "e").2 ∉
      ((((World.new Unit).create_default "e").1)).entities :=
  create_default_not_tracked Unit (World.new Unit) "e" (by decide)

/-- Claim C5: `World::create(id, components)` appends the newly
constructed entity to the entity list before returning and returns that
entity: the post-state list is the pre-state list with the returned
entity appended, the returned entity is a member of the post-state
list, and it carries the given id and the given component map. -/
theorem create_appends_entity (κ : Type) (w : World κ) (ident : String)
    (comps : List (String × List κ)) :
    ((w.create ident comps).1).entities = w.entities ++ [(w.create ident comps).2] ∧
    (w.create ident comps).2 ∈ ((w.create ident comps).1).entities ∧
    ((w.create ident comps).2).id = ident ∧
    ((w.create ident comps).2).components = comps := by
  refine ⟨rfl, ?_, rfl, rfl⟩
  simp [World.create]

/-- Claim C6 counterexample: `World::remove(e)` on the world
[dup, dup, x], with e the first entity of id "dup", does not remove all
entities whose id equals the id of e: exactly one entity of id "dup" is
still in the resulting list (the entity of id "x" was deleted in its
place). -/
theorem remove_leaves_shared_id :
    (dupWorld3.remove dupA).map
      (fun w => w.entities.countP (fun e => e.id == "dup")) = some 1 := by
  decide

/-- Claim C6 (amended): `World::remove(e)` behaves identically to
`World::remove_by_id(e.id)`: it matches by value equality of the
identifier string, not by reference identity; because of the stale-index
removal inside `remove_by_id`, entities sharing the id are not
necessarily all removed. -/
theorem remove_eq_remove_by_id (κ : Type) (w : World κ) (e : Entity κ) :
    w.remove e = w.remove_by_id e.id :=
  rfl

/-- Claim C7: when no entity in the list has the given id,
`World::remove_by_id(id)` is a no-op and not an error: the call returns
normally (no panic) and the entity list is exactly as before. -/
theorem remove_by_id_absent_noop (κ : Type) (w : World κ) (ident : String)
    (habs : ∀ e ∈ w.entities, e.id ≠ ident) :
    w.remove_by_id ident = some w := by
  unfold World.remove_by_id
  have hfil : (w.entities.enum.filter (fun p => p.2.id == ident)) = [] := by
    apply List.filter_eq_nil_iff.mpr
    intro p hp
    have hmem : p.2 ∈ w.entities := snd_mem_of_mem_enumFrom hp
    simpa using habs p.2 hmem
  rw [hfil]
  rfl

/-- Witness for claim C7 at a world holding one entity of id "x" and
the absent id "dup". -/
theorem remove_by_id_absent_noop_witness :
    (⟨[entX]⟩ : World Unit).remove_by_id "dup" = some ⟨[entX]⟩ :=
  remove_by_id_absent_noop Unit ⟨[entX]⟩ "dup" (by decide)

/-- Claim C8: `EventHandler::new(id, handler)` fully constructs the
component — carrying the given id and the given handler installed in
the handler slot — and then invokes `set_event_handler` exactly once,
passing `Some c` where `c` is the very component the constructor
returns, so the callback only ever observes the finished component. -/
theorem event_handler_new_two_phase (η H : Type) (ident : String) (handler : H) :
    (@EventHandler.new η H ident handler).2 =
      [some (@EventHandler.new η H ident handler).1] ∧
    ((@EventHandler.new η H ident handler).1).id = ident ∧
    ((@EventHandler.new η H ident handler).1).handler = handler :=
  ⟨rfl, rfl, rfl⟩

/-- Claim C9: `EventHandler::handle(event)` takes the read lock on the
handler slot, invokes the `handle` method of the currently installed
handler exactly once with the given event, and leaves the component —
in particular the handler slot — unmodified. -/
theorem event_handler_handle_forwards (η H E : Type) (c : EventHandler η H) (ev : E) :
    invokesOf (c.handle ev).1 = [(c.handler, ev)] ∧
    ((c.handle ev).1).head? = some (HandlerAction.readLock c.handler) ∧
    (c.handle ev).2 = c :=
  ⟨rfl, rfl, rfl⟩

/-- Claim C10: the component returned by `EventHandler::new` has its
attached-entity slot initialized to `None`: a freshly constructed
`EventHandler` is attached to no entity. -/
theorem event_handler_new_entity_none (η H : Type) (ident : String) (handler : H) :
    ((@EventHandler.new η H ident handler).1).entity = none :=
  rfl
